import Mathlib

/-!
Verification development for the CRA Client launch gating frontend.

The frontend bootstrap logic of src/src/main.ts is embedded as a pure
function from the backend-provided BootstrapState snapshot to the ordered
list of UI/backend effects the script performs (DOM mutations and Tauri
command invocations).  The DOM state reached by replaying such a trace is
computed by a fold, mirroring the imperative mutations.

The legacy pre-parity frontend (the older main.ts revision kept in the
repository) is embedded the same way for the refinement comparison.

Components whose implementation lives in the Rust backend (navigation
guard, build-parity checker, configuration resolver) are modelled from the
specification, and are clearly marked as such in their doc comments.
-/

namespace CRA

/-- The CSS status kinds used by setStatus in src/src/main.ts
("loading" | "ok" | "warning" | "error"). -/
inductive StatusKind where
  | loading
  | ok
  | warning
  | error
deriving DecidableEq, Repr

/-- One atomic effect performed by the frontend script: a DOM mutation on
the bootstrap screen, or an invocation of a Tauri backend command. -/
inductive Ev where
  | status (kind : StatusKind) (msg : String)
  | detailsText (msg : String)
  | showDetails
  | hideDetails
  | showActions
  | hideActions
  | retrySetDisabled (b : Bool)
  | subtitleText (msg : String)
  | invokeShowMainWindow
  | invokeLaunchApp
deriving DecidableEq, Repr

/-- The BootstrapState snapshot type of src/src/main.ts (fields the
backend serialises for one bootstrap attempt). -/
structure BootstrapState where
  ready : Bool
  config_error : Option String
  app_url : Option String
  app_host : Option String
  window_title : String
  window_width : Nat
  window_height : Nat
  version : String
  reachable : Bool
  reachability_error : Option String
  web_build_hash : Option String
  web_build_time : Option String
  required_web_build_hash : Option String
  build_parity_ok : Bool
  build_parity_error : Option String
  enforce_web_build : Bool
deriving DecidableEq, Repr

/-- JavaScript truthiness of a nullable string, as tested by
the if-condition in bootstrap: null and the empty string are falsy,
every other string is truthy. -/
def isTruthyStr : Option String → Bool
  | none => false
  | some s => !(s == "")

/-- Effects of setStatus (src/src/main.ts line 87). -/
def setStatusEv (kind : StatusKind) (msg : String) : List Ev :=
  [Ev.status kind msg]

/-- Effects of setDetails (src/src/main.ts line 92). -/
def setDetailsEv (msg : String) : List Ev :=
  [Ev.detailsText msg]

/-- Effects of setLoaderMode (src/src/main.ts line 96): hide the details
and actions, disable retry. -/
def setLoaderModeEv : List Ev :=
  [Ev.hideDetails, Ev.hideActions, Ev.retrySetDisabled true]

/-- Effects of setErrorMode (src/src/main.ts line 102): set the details
text, reveal details and actions, enable retry. -/
def setErrorModeEv (msg : String) : List Ev :=
  setDetailsEv msg ++ [Ev.showDetails, Ev.showActions, Ev.retrySetDisabled false]

/-- Effects of a call of ensureMainWindowVisible from within one
bootstrap dispatch.  At page load windowVisible is false, and every path
through bootstrap reaches at most one such call, so the early-return
guard never fires inside a single dispatch: the call always invokes the
show_main_window command. -/
def ensureEv : List Ev :=
  [Ev.invokeShowMainWindow]

/-- Effects of openRemoteApp (src/src/main.ts line 140), parametrised by
the outcome of the launch_app backend invocation: on failure the catch
handler surfaces the error and re-enables retry. -/
def openRemoteAppEvs (launchResult : Except String Unit) : List Ev :=
  setStatusEv .loading "Opening remote app..." ++ setLoaderModeEv ++
  [Ev.invokeLaunchApp] ++
  (match launchResult with
   | .ok _ => []
   | .error e =>
       ensureEv ++ setStatusEv .error "Could not open the app." ++ setErrorModeEv e)

/-- The fallback parity message of src/src/main.ts line 188: the value
of the local variable message. -/
def parityMessage (s : BootstrapState) : String :=
  s.build_parity_error.getD "Server build is older than required for this CRA Client."

/-- The hint-augmented parity message of src/src/main.ts line 191: the
value of the local variable withHints. -/
def parityWithHints (s : BootstrapState) : String :=
  parityMessage s ++ "\nConnected build: " ++ s.web_build_hash.getD "-" ++
  "\nRequired build: " ++ s.required_web_build_hash.getD "-"

/-- Effects of the dispatch on the received BootstrapState in bootstrap
(src/src/main.ts lines 186-211: the branching that follows the subtitle
assignment). -/
def bootstrapDispatch (s : BootstrapState) (launchResult : Except String Unit) : List Ev :=
  if !s.ready || isTruthyStr s.config_error then
    ensureEv ++ setStatusEv .error "Configuration error" ++
    setErrorModeEv (s.config_error.getD "Runtime configuration is incomplete.") ++
    [Ev.retrySetDisabled true]
  else if s.reachable then
    (if !s.build_parity_ok then
      (if s.enforce_web_build then
        ensureEv ++ setStatusEv .error "Build parity check failed" ++
        setErrorModeEv (parityWithHints s)
      else
        setStatusEv .warning "Build parity warning" ++
        setDetailsEv (parityWithHints s) ++ [Ev.showDetails] ++
        openRemoteAppEvs launchResult)
    else
      openRemoteAppEvs launchResult)
  else
    ensureEv ++ setStatusEv .error "Server unreachable" ++
    setErrorModeEv (s.reachability_error.getD "The server did not respond.")

/-- Effects of the whole success path of bootstrap (src/src/main.ts lines
169-211): the initial loading status and loader mode, the subtitle
assignment, then the dispatch on the received state.  (The surrounding
try/catch only matters when the bootstrap_state invocation itself
rejects, which carries no BootstrapState and is outside the claims.) -/
def bootstrapEvents (s : BootstrapState) (launchResult : Except String Unit) : List Ev :=
  setStatusEv .loading "Checking configuration..." ++ setLoaderModeEv ++
  [Ev.subtitleText ("Version " ++ s.version ++ " • Web " ++ s.web_build_hash.getD "-")] ++
  bootstrapDispatch s launchResult

/-- The DOM state of the bootstrap screen that the frontend mutates. -/
structure UiState where
  statusKind : StatusKind
  statusText : String
  detailsText : String
  detailsHidden : Bool
  actionsHidden : Bool
  retryDisabled : Bool
  subtitleText : String
deriving DecidableEq, Repr

/-- Replay one effect against the DOM state (backend invocations do not
touch the DOM). -/
def applyEv (u : UiState) : Ev → UiState
  | .status k m => { u with statusKind := k, statusText := m }
  | .detailsText m => { u with detailsText := m }
  | .showDetails => { u with detailsHidden := false }
  | .hideDetails => { u with detailsHidden := true }
  | .showActions => { u with actionsHidden := false }
  | .hideActions => { u with actionsHidden := true }
  | .retrySetDisabled b => { u with retryDisabled := b }
  | .subtitleText m => { u with subtitleText := m }
  | .invokeShowMainWindow => u
  | .invokeLaunchApp => u

/-- Replay a trace of effects against the DOM state. -/
def applyEvs (u : UiState) (evs : List Ev) : UiState :=
  evs.foldl applyEv u

/-- The DOM state rendered by the static markup of src/src/main.ts before
any script effect: loading status, hidden details and actions, retry
button disabled. -/
def initialUi : UiState :=
  { statusKind := .loading
    statusText := "Checking server reachability..."
    detailsText := ""
    detailsHidden := true
    actionsHidden := true
    retryDisabled := true
    subtitleText := "Connecting to server..." }

/-- The BootstrapState snapshot type of the legacy pre-parity frontend
revision kept in the repository (no parity fields). -/
structure LegacyBootstrapState where
  ready : Bool
  config_error : Option String
  app_url : Option String
  app_host : Option String
  window_title : String
  window_width : Nat
  window_height : Nat
  version : String
  reachable : Bool
  reachability_error : Option String
deriving DecidableEq, Repr

/-- Projection of the current snapshot onto the legacy field set. -/
def toLegacy (s : BootstrapState) : LegacyBootstrapState :=
  { ready := s.ready
    config_error := s.config_error
    app_url := s.app_url
    app_host := s.app_host
    window_title := s.window_title
    window_width := s.window_width
    window_height := s.window_height
    version := s.version
    reachable := s.reachable
    reachability_error := s.reachability_error }

/-- Effects of openRemoteApp in the legacy frontend revision. -/
def legacyOpenRemoteAppEvs (launchResult : Except String Unit) : List Ev :=
  setStatusEv .loading "Opening remote app..." ++
  setDetailsEv "Please wait while the desktop client switches to the web application." ++
  [Ev.retrySetDisabled true, Ev.invokeLaunchApp] ++
  (match launchResult with
   | .ok _ => []
   | .error e =>
       setStatusEv .error "Could not open the app." ++ setDetailsEv e ++
       [Ev.retrySetDisabled false])

/-- Effects of the dispatch on the received BootstrapState in the legacy
bootstrap of the legacy frontend revision (the branching after the subtitle
assignment). -/
def legacyBootstrapDispatch (s : LegacyBootstrapState) (launchResult : Except String Unit) :
    List Ev :=
  if !s.ready || isTruthyStr s.config_error then
    setStatusEv .error "Configuration error" ++
    setDetailsEv (s.config_error.getD "Runtime configuration is incomplete.") ++
    [Ev.retrySetDisabled true]
  else if s.reachable then
    legacyOpenRemoteAppEvs launchResult
  else
    setStatusEv .error "Server unreachable" ++
    setDetailsEv (s.reachability_error.getD "The server did not respond.") ++
    [Ev.retrySetDisabled false]

/-- Abstract outcome of one dispatch, for comparing the two frontend
revisions: either the launch_app command is invoked, or the bootstrap
screen blocks with some status text and retry-button state. -/
inductive Outcome where
  | launched
  | blocked (statusText : String) (retryDisabled : Bool)
deriving DecidableEq, Repr

/-- Classify a dispatch trace replayed from a DOM state. -/
def dispatchOutcome (u : UiState) (evs : List Ev) : Outcome :=
  if Ev.invokeLaunchApp ∈ evs then Outcome.launched
  else Outcome.blocked (applyEvs u evs).statusText (applyEvs u evs).retryDisabled

/-- ensureMainWindowVisible (src/src/main.ts line 108) as a function of
the windowVisible flag and the outcome of the show_main_window backend
command.  Returns the result propagated to the caller, the new flag, and
whether the command was invoked.  The catch handler swallows command
failures, leaving the flag unset. -/
def ensureMainWindowVisible (windowVisible : Bool) (cmdResult : Except String Unit) :
    Except String Unit × Bool × Bool :=
  if windowVisible then (Except.ok (), windowVisible, false)
  else
    match cmdResult with
    | .ok _ => (Except.ok (), true, true)
    | .error _ => (Except.ok (), windowVisible, true)

/-- Run a sequence of ensureMainWindowVisible calls (one backend command
outcome per call) from a starting flag; return the final flag and the
number of calls that successfully invoked the show_main_window command. -/
def runEnsureCalls (windowVisible : Bool) : List (Except String Unit) → Bool × Nat
  | [] => (windowVisible, 0)
  | cmd :: rest =>
    let r := ensureMainWindowVisible windowVisible cmd
    let n := runEnsureCalls r.2.1 rest
    (n.1, (if r.2.2 && (match cmd with | .ok _ => true | .error _ => false) then 1 else 0) + n.2)

/-- Modelled from the spec: the remote DeployInfo descriptor fetched by
the Rust-side BuildParityChecker, whose implementation is not in the
repository snapshot.  Both hash fields may be absent from the response. -/
structure DeployInfo where
  build_hash : Option String
  build_time : Option String
  git_hash : Option String
deriving DecidableEq, Repr

/-- Modelled from the spec: the observed hash of the Rust-side
BuildParityChecker: build.hash is authoritative, git.hash is the fallback
when build.hash is absent. -/
def observedHash (d : DeployInfo) : Option String :=
  match d.build_hash with
  | some h => some h
  | none => d.git_hash

/-- The characters of a string lowered case by case; the form of
case-insensitive comparison used by the modelled components. -/
def lowerChars (s : String) : List Char :=
  s.data.map Char.toLower

/-- Modelled from the spec: the parity verdict of the Rust-side
BuildParityChecker on a parsed deploy-info response: ok when the minimum
hash is unset, or when the observed hash starts with it case-insensitively. -/
def parityOk (minHash : Option String) (d : DeployInfo) : Bool :=
  match minHash with
  | none => true
  | some m =>
    match observedHash d with
    | none => false
    | some o => List.isPrefixOf (lowerChars m) (lowerChars o)

/-- Modelled from the spec: the navigation decision of the Rust-side
NavigationGuard, whose implementation is not in the repository snapshot. -/
inductive NavDecision where
  | allow
  | block
deriving DecidableEq, Repr

/-- A navigation request attempted by the hosted window, reduced to the
components the guard consults: the target host, and the target port which
the comparison ignores. -/
structure NavRequest where
  host : String
  port : Option Nat
deriving DecidableEq, Repr

/-- Modelled from the spec: the host comparison of the Rust-side
NavigationGuard: exact host match against the allowlist, case-insensitive,
port ignored. -/
def hostAllowed (allowedHosts : List String) (host : String) : Bool :=
  allowedHosts.any (fun a => lowerChars a == lowerChars host)

/-- Modelled from the spec: the Allow/Block decision of the Rust-side
NavigationGuard for one attempted navigation. -/
def navigationGuard (allowedHosts : List String) (req : NavRequest) : NavDecision :=
  if hostAllowed allowedHosts req.host then NavDecision.allow else NavDecision.block

/-- Modelled from the spec: the page the hosted window displays after the
guard decision: an allowed navigation reaches its target, a blocked one
keeps the window on its current page. -/
def pageAfterNavigation (allowedHosts : List String) (currentPage : String)
    (req : NavRequest) (targetPage : String) : String :=
  match navigationGuard allowedHosts req with
  | .allow => targetPage
  | .block => currentPage

/-- Modelled from the spec: the four ranked configuration sources of the
Rust-side ConfigSource Resolver, highest precedence first: namespaced
process environment variables, client.env in the current working
directory, client.env next to the executable, the per-user app-data
client.env.  Each source is a possibly-undefined key/value mapping. -/
structure ConfigSources where
  processEnv : String → Option String
  cwdFile : String → Option String
  exeFile : String → Option String
  appDataFile : String → Option String

/-- Modelled from the spec: per-key resolution of the Rust-side
ConfigSource Resolver: a key takes its value from the first source, in
precedence order, that defines it. -/
def resolveKey (cs : ConfigSources) (key : String) : Option String :=
  match cs.processEnv key with
  | some v => some v
  | none =>
    match cs.cwdFile key with
    | some v => some v
    | none =>
      match cs.exeFile key with
      | some v => some v
      | none => cs.appDataFile key

/-- An effect that surfaces a warning or error status on the bootstrap
screen. -/
def isAlertStatus : Ev → Bool
  | .status .warning _ => true
  | .status .error _ => true
  | _ => false

/-- A representative backend snapshot used to instantiate theorems on
concrete inputs: ready, validated configuration, reachable server, failed
parity check against the documented minimum hash, enforcement on. -/
def sampleState : BootstrapState :=
  { ready := true
    config_error := none
    app_url := some "http://192.168.50.55:3000"
    app_host := some "192.168.50.55"
    window_title := "CRA Client"
    window_width := 1280
    window_height := 800
    version := "0.1.14"
    reachable := true
    reachability_error := none
    web_build_hash := some "1111111"
    web_build_time := none
    required_web_build_hash := some "aacb669"
    build_parity_ok := false
    build_parity_error := none
    enforce_web_build := true }

/-- Concrete snapshot: parity check passed. -/
def parityOkState : BootstrapState :=
  { sampleState with build_parity_ok := true }

/-- Concrete snapshot: parity failure, enforcement off. -/
def noEnforceState : BootstrapState :=
  { sampleState with enforce_web_build := false }

/-- Concrete snapshot: not ready, with a configuration error message. -/
def notReadyState : BootstrapState :=
  { sampleState with
    ready := false
    config_error := some "APP_URL is missing" }

/-- Concrete snapshot: ready flag set but config_error holds the empty
string, unreachable server. -/
def emptyErrUnreachableState : BootstrapState :=
  { sampleState with
    config_error := some ""
    reachable := false }

/-- Concrete snapshot: ready flag set but config_error holds the empty
string, reachable server with passing parity. -/
def emptyErrLaunchState : BootstrapState :=
  { sampleState with
    config_error := some ""
    build_parity_ok := true }

/-- Concrete snapshot: unreachable server with a reachability message. -/
def unreachState : BootstrapState :=
  { sampleState with
    reachable := false
    reachability_error := some "Could not reach server at http://192.168.50.55:3000" }

/-- Concrete configuration sources used to instantiate the resolution
theorem: the environment and executable-adjacent tiers are empty, the
working-directory file defines only WINDOW_TITLE, and the app-data file
defines only APP_URL. -/
def witnessSources : ConfigSources :=
  { processEnv := fun _ => none
    cwdFile := fun k => if k == "WINDOW_TITLE" then some "CRA Client" else none
    exeFile := fun _ => none
    appDataFile := fun k =>
      if k == "APP_URL" then some "http://192.168.50.55:3000" else none }

/-! ## Theorems -/

/-- Claim C7: for every BootstrapState with ready = true, config_error =
null, reachable = true and build_parity_ok = true, the bootstrap dispatch
invokes launch_app directly, showing neither a warning nor an error
beforehand: the dispatch is exactly the openRemoteApp sequence, and every
effect preceding the launch_app invocation in the full bootstrap trace is
free of warning and error statuses. -/
theorem parity_ok_launches_directly (s : BootstrapState) (r : Except String Unit)
    (hready : s.ready = true) (hcfg : s.config_error = none)
    (hreach : s.reachable = true) (hpar : s.build_parity_ok = true) :
    bootstrapDispatch s r = openRemoteAppEvs r ∧
    ∃ pre post, bootstrapEvents s r = pre ++ Ev.invokeLaunchApp :: post ∧
      pre.all (fun e => !isAlertStatus e) = true := by
  constructor
  · simp [bootstrapDispatch, hready, hcfg, hreach, hpar, isTruthyStr]
  · refine ⟨[Ev.status .loading "Checking configuration...", Ev.hideDetails,
      Ev.hideActions, Ev.retrySetDisabled true,
      Ev.subtitleText ("Version " ++ s.version ++ " • Web " ++ s.web_build_hash.getD "-"),
      Ev.status .loading "Opening remote app...", Ev.hideDetails, Ev.hideActions,
      Ev.retrySetDisabled true],
      (match r with
       | .ok _ => []
       | .error e =>
           ensureEv ++ setStatusEv .error "Could not open the app." ++ setErrorModeEv e), ?_, ?_⟩
    · simp [bootstrapEvents, bootstrapDispatch, hready, hcfg, hreach, hpar, isTruthyStr,
        openRemoteAppEvs, setStatusEv, setLoaderModeEv, setDetailsEv, setErrorModeEv, ensureEv]
    · rfl

/-- Witness for Claim C7 on a concrete snapshot. -/
theorem parity_ok_launches_directly_witness :
    bootstrapDispatch { sampleState with build_parity_ok := true } (Except.ok ()) =
      openRemoteAppEvs (Except.ok ()) :=
  (parity_ok_launches_directly { sampleState with build_parity_ok := true }
    (Except.ok ()) rfl rfl rfl rfl).1

/-- Claim C1: for every BootstrapState with ready = true, config_error =
null, reachable = true and build_parity_ok = false, the dispatch is
determined by enforce_web_build.  Enforcing: the parity-failure error is
shown with the hint message, retry is enabled, and launch_app is never
invoked.  Non-enforcing: the dispatch surfaces the warning status and the
hint details and then runs openRemoteApp, which invokes launch_app. -/
theorem parity_failed_dispatch_by_enforce (s : BootstrapState) (r : Except String Unit)
    (u : UiState) (hready : s.ready = true) (hcfg : s.config_error = none)
    (hreach : s.reachable = true) (hpar : s.build_parity_ok = false) :
    (s.enforce_web_build = true →
      Ev.invokeLaunchApp ∉ bootstrapEvents s r ∧
      (applyEvs u (bootstrapEvents s r)).statusKind = StatusKind.error ∧
      (applyEvs u (bootstrapEvents s r)).statusText = "Build parity check failed" ∧
      (applyEvs u (bootstrapEvents s r)).detailsText = parityWithHints s ∧
      (applyEvs u (bootstrapEvents s r)).detailsHidden = false ∧
      (applyEvs u (bootstrapEvents s r)).retryDisabled = false) ∧
    (s.enforce_web_build = false →
      bootstrapDispatch s r =
        setStatusEv .warning "Build parity warning" ++ setDetailsEv (parityWithHints s) ++
        [Ev.showDetails] ++ openRemoteAppEvs r ∧
      Ev.invokeLaunchApp ∈ openRemoteAppEvs r) := by
  constructor
  · intro henf
    refine ⟨?_, ?_⟩
    · simp [bootstrapEvents, bootstrapDispatch, hready, hcfg, hreach, hpar, henf, isTruthyStr,
        setStatusEv, setLoaderModeEv, setDetailsEv, setErrorModeEv, ensureEv]
    · simp [bootstrapEvents, bootstrapDispatch, hready, hcfg, hreach, hpar, henf, isTruthyStr,
        setStatusEv, setLoaderModeEv, setDetailsEv, setErrorModeEv, ensureEv,
        applyEvs, applyEv]
  · intro henf
    constructor
    · simp [bootstrapDispatch, hready, hcfg, hreach, hpar, henf, isTruthyStr]
    · cases r <;>
        simp [openRemoteAppEvs, setStatusEv, setLoaderModeEv, setDetailsEv, setErrorModeEv,
          ensureEv]

/-- Witness for Claim C1 on concrete snapshots, one per enforcement mode. -/
theorem parity_failed_dispatch_by_enforce_witness :
    Ev.invokeLaunchApp ∉ bootstrapEvents sampleState (Except.ok ()) ∧
    (applyEvs initialUi (bootstrapEvents sampleState (Except.ok ()))).retryDisabled = false ∧
    Ev.invokeLaunchApp ∈
      openRemoteAppEvs (Except.ok () : Except String Unit) := by
  have h := parity_failed_dispatch_by_enforce sampleState (Except.ok ()) initialUi
    rfl rfl rfl rfl
  have h1 := h.1 rfl
  have h2 := (parity_failed_dispatch_by_enforce { sampleState with enforce_web_build := false }
    (Except.ok ()) initialUi rfl rfl rfl rfl).2 rfl
  exact ⟨h1.1, h1.2.2.2.2.2, h2.2⟩

/-- Claim C3 (amended): for every BootstrapState with ready = false or a
truthy (non-null, non-empty) config_error, the dispatch enters the
configuration-error screen with the retry button disabled and never
invokes launch_app.  The amendment is forced by the JavaScript truthiness
test of the source condition, under which a present but empty
config_error string does not trigger this branch. -/
theorem config_error_terminal (s : BootstrapState) (r : Except String Unit) (u : UiState)
    (h : s.ready = false ∨ isTruthyStr s.config_error = true) :
    bootstrapDispatch s r =
      ensureEv ++ setStatusEv .error "Configuration error" ++
      setErrorModeEv (s.config_error.getD "Runtime configuration is incomplete.") ++
      [Ev.retrySetDisabled true] ∧
    Ev.invokeLaunchApp ∉ bootstrapEvents s r ∧
    (applyEvs u (bootstrapEvents s r)).statusKind = StatusKind.error ∧
    (applyEvs u (bootstrapEvents s r)).statusText = "Configuration error" ∧
    (applyEvs u (bootstrapEvents s r)).detailsText =
      s.config_error.getD "Runtime configuration is incomplete." ∧
    (applyEvs u (bootstrapEvents s r)).retryDisabled = true := by
  have hc : (!s.ready || isTruthyStr s.config_error) = true := by
    rcases h with h | h <;> simp [h]
  refine ⟨?_, ?_, ?_⟩
  · simp [bootstrapDispatch, hc]
  · simp [bootstrapEvents, bootstrapDispatch, hc, setStatusEv, setLoaderModeEv,
      setDetailsEv, setErrorModeEv, ensureEv]
  · simp [bootstrapEvents, bootstrapDispatch, hc, setStatusEv, setLoaderModeEv,
      setDetailsEv, setErrorModeEv, ensureEv, applyEvs, applyEv]

/-- Witness for Claim C3 (amended) on a concrete not-ready snapshot. -/
theorem config_error_terminal_witness :
    Ev.invokeLaunchApp ∉ bootstrapEvents notReadyState (Except.ok ()) ∧
    (applyEvs initialUi (bootstrapEvents notReadyState (Except.ok ()))).retryDisabled = true := by
  have h := config_error_terminal notReadyState (Except.ok ()) initialUi (Or.inl rfl)
  exact ⟨h.2.1, h.2.2.2.2.2⟩

/-- Counterexample to Claim C3 as stated: a snapshot whose config_error
is non-null (the empty string) with ready = true is dispatched to the
unreachable screen with retry enabled, not to the configuration-error
screen with retry disabled. -/
theorem config_error_empty_string_cex :
    emptyErrUnreachableState.ready = true ∧
    emptyErrUnreachableState.config_error.isSome = true ∧
    (applyEvs initialUi
      (bootstrapEvents emptyErrUnreachableState (Except.ok ()))).statusText =
      "Server unreachable" ∧
    ¬ ((applyEvs initialUi
          (bootstrapEvents emptyErrUnreachableState (Except.ok ()))).statusText =
          "Configuration error" ∧
       (applyEvs initialUi
          (bootstrapEvents emptyErrUnreachableState (Except.ok ()))).retryDisabled = true) := by
  refine ⟨rfl, rfl, rfl, ?_⟩
  intro hcontra
  exact absurd hcontra.1 (by decide)

/-- Claim C4: for every BootstrapState with ready = true, config_error =
null and reachable = false, the dispatch shows the unreachable error
(reachability_error or the default message) with retry enabled, never
invokes launch_app, and ignores the parity fields entirely: any snapshot
agreeing on ready, config_error, reachable and reachability_error yields
the identical dispatch. -/
theorem unreachable_dispatch (s : BootstrapState) (r : Except String Unit) (u : UiState)
    (hready : s.ready = true) (hcfg : s.config_error = none)
    (hreach : s.reachable = false) :
    bootstrapDispatch s r =
      ensureEv ++ setStatusEv .error "Server unreachable" ++
      setErrorModeEv (s.reachability_error.getD "The server did not respond.") ∧
    Ev.invokeLaunchApp ∉ bootstrapEvents s r ∧
    (applyEvs u (bootstrapEvents s r)).statusKind = StatusKind.error ∧
    (applyEvs u (bootstrapEvents s r)).statusText = "Server unreachable" ∧
    (applyEvs u (bootstrapEvents s r)).detailsText =
      s.reachability_error.getD "The server did not respond." ∧
    (applyEvs u (bootstrapEvents s r)).retryDisabled = false ∧
    (∀ t : BootstrapState, t.ready = s.ready → t.config_error = s.config_error →
      t.reachable = s.reachable → t.reachability_error = s.reachability_error →
      bootstrapDispatch t r = bootstrapDispatch s r) := by
  refine ⟨?_, ?_, ?_, ?_, ?_, ?_, ?_⟩
  · simp [bootstrapDispatch, hready, hcfg, hreach, isTruthyStr]
  · simp [bootstrapEvents, bootstrapDispatch, hready, hcfg, hreach, isTruthyStr,
      setStatusEv, setLoaderModeEv, setDetailsEv, setErrorModeEv, ensureEv]
  · simp [bootstrapEvents, bootstrapDispatch, hready, hcfg, hreach, isTruthyStr,
      setStatusEv, setLoaderModeEv, setDetailsEv, setErrorModeEv, ensureEv,
      applyEvs, applyEv]
  · simp [bootstrapEvents, bootstrapDispatch, hready, hcfg, hreach, isTruthyStr,
      setStatusEv, setLoaderModeEv, setDetailsEv, setErrorModeEv, ensureEv,
      applyEvs, applyEv]
  · simp [bootstrapEvents, bootstrapDispatch, hready, hcfg, hreach, isTruthyStr,
      setStatusEv, setLoaderModeEv, setDetailsEv, setErrorModeEv, ensureEv,
      applyEvs, applyEv]
  · simp [bootstrapEvents, bootstrapDispatch, hready, hcfg, hreach, isTruthyStr,
      setStatusEv, setLoaderModeEv, setDetailsEv, setErrorModeEv, ensureEv,
      applyEvs, applyEv]
  · intro t h1 h2 h3 h4
    simp [bootstrapDispatch, hready, hcfg, hreach, isTruthyStr, h1, h2, h3, h4]

/-- Witness for Claim C4 on a concrete unreachable snapshot. -/
theorem unreachable_dispatch_witness :
    (applyEvs initialUi
      (bootstrapEvents unreachState (Except.ok ()))).statusText = "Server unreachable" ∧
    (applyEvs initialUi
      (bootstrapEvents unreachState (Except.ok ()))).retryDisabled = false := by
  have h := unreachable_dispatch unreachState (Except.ok ()) initialUi rfl rfl rfl
  exact ⟨h.2.2.2.1, h.2.2.2.2.2.1⟩

/-- Claim C8: every parity-failure message surfaced to the user (both the
blocking error and the non-enforcing warning) is the hint-augmented
message, which contains the connected (observed) build hash and the
required minimum build hash, each rendered as a dash when absent. -/
theorem parity_message_contains_hashes (s : BootstrapState) (r : Except String Unit)
    (hready : s.ready = true) (hcfg : s.config_error = none)
    (hreach : s.reachable = true) (hpar : s.build_parity_ok = false) :
    Ev.detailsText (parityWithHints s) ∈ bootstrapDispatch s r ∧
    (∃ l₁ l₂, (parityWithHints s).data =
      l₁ ++ ("Connected build: " ++ s.web_build_hash.getD "-").data ++ l₂) ∧
    (∃ l₁ l₂, (parityWithHints s).data =
      l₁ ++ ("Required build: " ++ s.required_web_build_hash.getD "-").data ++ l₂) := by
  refine ⟨?_, ?_, ?_⟩
  · cases henf : s.enforce_web_build <;>
      simp [bootstrapDispatch, hready, hcfg, hreach, hpar, henf, isTruthyStr,
        setStatusEv, setLoaderModeEv, setDetailsEv, setErrorModeEv, ensureEv,
        openRemoteAppEvs]
  · refine ⟨(parityMessage s).data ++ [Char.ofNat 10],
      ("\nRequired build: " : String).data ++ (s.required_web_build_hash.getD "-").data, ?_⟩
    have h1 : ("\nConnected build: " : String).data =
        Char.ofNat 10 :: ("Connected build: " : String).data := by decide
    simp [parityWithHints, String.data_append, h1, List.append_assoc]
  · refine ⟨(parityMessage s).data ++ ("\nConnected build: " : String).data ++
      (s.web_build_hash.getD "-").data ++ [Char.ofNat 10], [], ?_⟩
    have h2 : ("\nRequired build: " : String).data =
        Char.ofNat 10 :: ("Required build: " : String).data := by decide
    simp [parityWithHints, String.data_append, h2, List.append_assoc]

/-- Witness for Claim C8 on a concrete snapshot with both hashes present. -/
theorem parity_message_contains_hashes_witness :
    Ev.detailsText (parityWithHints sampleState) ∈
      bootstrapDispatch sampleState (Except.ok ()) :=
  (parity_message_contains_hashes sampleState (Except.ok ()) rfl rfl rfl rfl).1

/-- Claim C9 (amended): on every BootstrapState whose parity fields
report success or whose config/reachability checks fail, the current
dispatch reaches the same outcome as the legacy pre-parity dispatch; the
common outcome is the configuration-error screen with retry disabled when
not ready or config_error is truthy (non-null and non-empty), the
launch_app invocation when reachable, and the unreachable error with
retry enabled otherwise.  The truthiness amendment is forced by the
JavaScript condition both revisions share, under which a present but
empty config_error string does not yield the configuration-error screen. -/
theorem legacy_refinement (s : BootstrapState) (r : Except String Unit) (u : UiState)
    (h : s.build_parity_ok = true ∨ s.ready = false ∨ isTruthyStr s.config_error = true ∨
      s.reachable = false) :
    dispatchOutcome u (bootstrapDispatch s r) =
      dispatchOutcome u (legacyBootstrapDispatch (toLegacy s) r) ∧
    ((s.ready = false ∨ isTruthyStr s.config_error = true) →
      dispatchOutcome u (bootstrapDispatch s r) = Outcome.blocked "Configuration error" true) ∧
    (s.ready = true → isTruthyStr s.config_error = false → s.reachable = true →
      dispatchOutcome u (bootstrapDispatch s r) = Outcome.launched) ∧
    (s.ready = true → isTruthyStr s.config_error = false → s.reachable = false →
      dispatchOutcome u (bootstrapDispatch s r) = Outcome.blocked "Server unreachable" false) := by
  by_cases hc : (!s.ready || isTruthyStr s.config_error) = true
  · refine ⟨?_, ?_, ?_, ?_⟩
    · simp [dispatchOutcome, bootstrapDispatch, legacyBootstrapDispatch, toLegacy, hc,
        setStatusEv, setDetailsEv, setErrorModeEv, ensureEv, applyEvs, applyEv]
    · intro _
      simp [dispatchOutcome, bootstrapDispatch, hc, setStatusEv, setDetailsEv,
        setErrorModeEv, ensureEv, applyEvs, applyEv]
    · intro h1 h2 _
      rw [h1, h2] at hc
      simp at hc
    · intro h1 h2 _
      rw [h1, h2] at hc
      simp at hc
  · have hc2 : (!s.ready || isTruthyStr s.config_error) = false := by
      simpa using hc
    have hready : s.ready = true := by
      rcases Bool.or_eq_false_iff.mp hc2 with ⟨hn, _⟩
      simpa using hn
    have hterr : isTruthyStr s.config_error = false :=
      (Bool.or_eq_false_iff.mp hc2).2
    cases hreach : s.reachable
    · refine ⟨?_, ?_, ?_, ?_⟩
      · simp [dispatchOutcome, bootstrapDispatch, legacyBootstrapDispatch, toLegacy, hc2,
          hready, hterr, hreach, setStatusEv, setDetailsEv, setErrorModeEv, ensureEv,
          applyEvs, applyEv]
      · intro hor
        rcases hor with h1 | h1
        · rw [hready] at h1; exact absurd h1 (by simp)
        · rw [hterr] at h1; exact absurd h1 (by simp)
      · intro _ _ h3
        exact absurd h3 (by simp)
      · intro _ _ _
        simp [dispatchOutcome, bootstrapDispatch, hc2, hready, hterr, hreach,
          setStatusEv, setDetailsEv, setErrorModeEv, ensureEv, applyEvs, applyEv]
    · have hpar : s.build_parity_ok = true := by
        rcases h with h1 | h1 | h1 | h1
        · exact h1
        · rw [hready] at h1; exact absurd h1 (by simp)
        · rw [hterr] at h1; exact absurd h1 (by simp)
        · rw [hreach] at h1; exact absurd h1 (by simp)
      refine ⟨?_, ?_, ?_, ?_⟩
      · cases r <;>
          simp [dispatchOutcome, bootstrapDispatch, legacyBootstrapDispatch, toLegacy,
            hc2, hready, hterr, hreach, hpar, openRemoteAppEvs, legacyOpenRemoteAppEvs,
            setStatusEv, setDetailsEv, setLoaderModeEv, setErrorModeEv, ensureEv]
      · intro hor
        rcases hor with h1 | h1
        · rw [hready] at h1; exact absurd h1 (by simp)
        · rw [hterr] at h1; exact absurd h1 (by simp)
      · intro _ _ _
        cases r <;>
          simp [dispatchOutcome, bootstrapDispatch, hc2, hready, hterr, hreach, hpar,
            openRemoteAppEvs, setStatusEv, setDetailsEv, setLoaderModeEv, setErrorModeEv,
            ensureEv]
      · intro _ _ h3
        exact absurd h3 (by simp)

/-- Witness for Claim C9 (amended) on a concrete parity-passing snapshot. -/
theorem legacy_refinement_witness :
    dispatchOutcome initialUi (bootstrapDispatch parityOkState (Except.ok ())) =
      dispatchOutcome initialUi (legacyBootstrapDispatch (toLegacy parityOkState)
        (Except.ok ())) :=
  (legacy_refinement parityOkState (Except.ok ()) initialUi (Or.inl rfl)).1

/-- Counterexample to Claim C9 as stated: a snapshot whose config_error
is non-null (the empty string) but whose parity fields report success is
dispatched to the launch_app invocation by both revisions, not to the
configuration-error screen the claim prescribes for a set config_error. -/
theorem legacy_refinement_cex :
    emptyErrLaunchState.config_error.isSome = true ∧
    dispatchOutcome initialUi (bootstrapDispatch emptyErrLaunchState (Except.ok ())) =
      Outcome.launched ∧
    dispatchOutcome initialUi (bootstrapDispatch emptyErrLaunchState (Except.ok ())) ≠
      Outcome.blocked "Configuration error" true := by
  refine ⟨rfl, ?_, ?_⟩ <;> decide

/-- A run of ensureMainWindowVisible calls starting with the window
already visible performs no further command invocations and keeps the
flag set. -/
theorem runEnsureCalls_visible (cmds : List (Except String Unit)) :
    runEnsureCalls true cmds = (true, 0) := by
  induction cmds with
  | nil => rfl
  | cons cmd rest ih => simp [runEnsureCalls, ensureMainWindowVisible, ih]

/-- Claim C10: ensureMainWindowVisible never propagates an error to its
caller; once the show_main_window command has succeeded the flag is set
and every later call returns immediately without invoking the command;
and over any sequence of calls in a page session the command succeeds at
most once. -/
theorem ensure_window_idempotent :
    (∀ (v : Bool) (cmd : Except String Unit),
      (ensureMainWindowVisible v cmd).1 = Except.ok ()) ∧
    (∀ v : Bool, (ensureMainWindowVisible v (Except.ok ())).2.1 = true) ∧
    (∀ cmd : Except String Unit,
      ensureMainWindowVisible true cmd = (Except.ok (), true, false)) ∧
    (∀ cmds : List (Except String Unit), (runEnsureCalls true cmds).2 = 0) ∧
    (∀ cmds : List (Except String Unit), (runEnsureCalls false cmds).2 ≤ 1) := by
  refine ⟨?_, ?_, ?_, ?_, ?_⟩
  · intro v cmd
    cases v <;> cases cmd <;> rfl
  · intro v
    cases v <;> rfl
  · intro cmd
    rfl
  · intro cmds
    simp [runEnsureCalls_visible]
  · intro cmds
    induction cmds with
    | nil => simp [runEnsureCalls]
    | cons cmd rest ih =>
      cases cmd with
      | ok a => simp [runEnsureCalls, ensureMainWindowVisible, runEnsureCalls_visible]
      | error e => simpa [runEnsureCalls, ensureMainWindowVisible] using ih

/-- Witness for Claim C10: over a concrete session in which the command
first fails, then succeeds, then is requested twice more, it is invoked
successfully exactly once. -/
theorem ensure_window_idempotent_witness :
    (runEnsureCalls false [Except.error "busy", Except.ok (), Except.ok (),
      Except.ok ()]).2 ≤ 1 :=
  ensure_window_idempotent.2.2.2.2
    [Except.error "busy", Except.ok (), Except.ok (), Except.ok ()]

/-- Claim C2: the NavigationGuard blocks evil.example.com and allows
192.168.50.55 on any port when the allowlist holds 192.168.50.55; the
decision is exact case-insensitive host comparison with the port ignored;
and a blocked request keeps the window on its current page. -/
theorem navigation_guard_allowlist :
    navigationGuard ["192.168.50.55"] ⟨"evil.example.com", none⟩ = NavDecision.block ∧
    navigationGuard ["192.168.50.55"] ⟨"192.168.50.55", some 3000⟩ = NavDecision.allow ∧
    (∀ (allowedHosts : List String) (host : String) (p₁ p₂ : Option Nat),
      navigationGuard allowedHosts ⟨host, p₁⟩ = navigationGuard allowedHosts ⟨host, p₂⟩) ∧
    (∀ (allowedHosts : List String) (h₁ h₂ : String) (p₁ p₂ : Option Nat),
      lowerChars h₁ = lowerChars h₂ →
      navigationGuard allowedHosts ⟨h₁, p₁⟩ = navigationGuard allowedHosts ⟨h₂, p₂⟩) ∧
    (∀ (allowedHosts : List String) (currentPage : String) (req : NavRequest)
      (targetPage : String), navigationGuard allowedHosts req = NavDecision.block →
      pageAfterNavigation allowedHosts currentPage req targetPage = currentPage) := by
  refine ⟨by decide, by decide, ?_, ?_, ?_⟩
  · intro allowedHosts host p₁ p₂
    rfl
  · intro allowedHosts h₁ h₂ p₁ p₂ hl
    simp [navigationGuard, hostAllowed, hl]
  · intro allowedHosts currentPage req targetPage hblock
    simp [pageAfterNavigation, hblock]

/-- Witness for Claim C2: a blocked navigation leaves the window on its
current page at concrete inputs. -/
theorem navigation_guard_allowlist_witness :
    pageAfterNavigation ["192.168.50.55"] "http://192.168.50.55:3000/app"
      ⟨"evil.example.com", none⟩ "https://evil.example.com/" =
      "http://192.168.50.55:3000/app" :=
  navigation_guard_allowlist.2.2.2.2 ["192.168.50.55"] "http://192.168.50.55:3000/app"
    ⟨"evil.example.com", none⟩ "https://evil.example.com/"
    navigation_guard_allowlist.1

/-- Claim C5: the parity check reports ok exactly when the minimum hash
is unset or the observed hash (build hash, falling back to the git hash
when the build hash is absent) starts with it case-insensitively; in
particular minimum aacb669 against build hash AACB669123 passes. -/
theorem parity_check_semantics :
    (∀ d : DeployInfo, parityOk none d = true) ∧
    (∀ (m : String) (d : DeployInfo), parityOk (some m) d = true ↔
      ∃ o, observedHash d = some o ∧
        List.isPrefixOf (lowerChars m) (lowerChars o) = true) ∧
    (∀ (bh : String) (bt g : Option String), observedHash ⟨some bh, bt, g⟩ = some bh) ∧
    (∀ (bt g : Option String), observedHash ⟨none, bt, g⟩ = g) ∧
    parityOk (some "aacb669") ⟨some "AACB669123", none, none⟩ = true := by
  refine ⟨?_, ?_, ?_, ?_, by decide⟩
  · intro d
    rfl
  · intro m d
    cases hobs : observedHash d with
    | none => simp [parityOk, hobs]
    | some o => simp [parityOk, hobs]
  · intro bh bt g
    rfl
  · intro bt g
    rfl

/-- Witness for Claim C5: the documented concrete prefix match passes. -/
theorem parity_check_semantics_witness :
    parityOk (some "aacb669") ⟨some "AACB669123", none, none⟩ = true :=
  parity_check_semantics.2.2.2.2

/-- Claim C6: configuration resolution over the four ranked sources is
per-key: a key takes the value of the highest-precedence source defining
it, and a key defined only in a lower-precedence source is still used
when every higher-precedence source omits it. -/
theorem config_resolution_per_key (cs : ConfigSources) (k v : String) :
    (cs.processEnv k = some v → resolveKey cs k = some v) ∧
    (cs.processEnv k = none → cs.cwdFile k = some v → resolveKey cs k = some v) ∧
    (cs.processEnv k = none → cs.cwdFile k = none → cs.exeFile k = some v →
      resolveKey cs k = some v) ∧
    (cs.processEnv k = none → cs.cwdFile k = none → cs.exeFile k = none →
      resolveKey cs k = cs.appDataFile k) := by
  refine ⟨?_, ?_, ?_, ?_⟩
  · intro h1
    simp [resolveKey, h1]
  · intro h1 h2
    simp [resolveKey, h1, h2]
  · intro h1 h2 h3
    simp [resolveKey, h1, h2, h3]
  · intro h1 h2 h3
    simp [resolveKey, h1, h2, h3]

/-- Witness for Claim C6: with the environment and executable tiers
empty, APP_URL defined only in the lowest tier is still resolved, and the
working-directory tier that defines only WINDOW_TITLE does not suppress
it. -/
theorem config_resolution_per_key_witness :
    resolveKey witnessSources "APP_URL" = some "http://192.168.50.55:3000" ∧
    resolveKey witnessSources "WINDOW_TITLE" = some "CRA Client" := by
  constructor
  · have h := (config_resolution_per_key witnessSources "APP_URL" "").2.2.2
      (by decide) (by decide) (by decide)
    rw [h]
    decide
  · exact (config_resolution_per_key witnessSources "WINDOW_TITLE" "CRA Client").2.1
      (by decide) (by decide)

end CRA
